import Mathlib

/-!
Landslide susceptibility dashboard: weighted overlay and forecast substitution.

A shallow embedding of `src/gee_code/landslide_dashboard.js`.

The script builds Earth Engine image expressions.  Every operator it uses on
images (`unitScale`, `clamp`, `multiply`, `add`, `gt`, `lte`, `and`, `where`)
acts pixel by pixel, so an image is embedded by its value at one cell that
lies inside `studyRegion` and is not masked; there `.clip(studyRegion)` and a
single-band `.rename(..)` leave the value unchanged.  Band values are rational
numbers: every finite double is a rational, and the raster arithmetic is the
exact one (no rounding).  The percentages of `calculateRiskAreas`, computed in
the browser, are modelled in JavaScript number arithmetic, each operation
rounded to the nearest double.

`slope` (from `ee.Terrain.slope`), `rainfall`, `ndvi` and `geology` come from
neighbourhood or collection reducers over external rasters; their values at
the cell are inputs.  `drainage` is computed by the script from `slope`.

Feature collections are lists.  The services of the platform that the script
calls on them (label parsing, sampling, random split values, training,
classification, confusion matrix) are the fields of `Platform`; the script's
own steps are functions of them.  The widgets of the point inspector are
records of label texts, and the asynchronous point queries are a sequence of
click and arrival events.
-/

namespace SafeHills

/-! ## Pixel operators of the image algebra -/

namespace Px

/-- Value of `img.unitScale(low, high)` at a cell: `(v - low) / (high - low)`,
not clamped. -/
def unitScale (v low high : ℚ) : ℚ := (v - low) / (high - low)

/-- Value of `img.clamp(low, high)` at a cell. -/
def clamp (v low high : ℚ) : ℚ := max low (min high v)

/-- Value of `img.multiply(k)` at a cell. -/
def multiply (v k : ℚ) : ℚ := v * k

/-- Value of `img.add(w)` at a cell. -/
def add (v w : ℚ) : ℚ := v + w

/-- Value of `a.gt(b)` at a cell: 1 when `a > b`, else 0. -/
def gt (a b : ℚ) : ℚ := if a > b then 1 else 0

/-- Value of `a.lte(b)` at a cell: 1 when `a ≤ b`, else 0. -/
def lte (a b : ℚ) : ℚ := if a ≤ b then 1 else 0

/-- Value of `a.and(b)` at a cell: 1 when both are non-zero, else 0. -/
def and (a b : ℚ) : ℚ := if a ≠ 0 ∧ b ≠ 0 then 1 else 0

/-- Value of `input.where(test, value)` at a cell: `value` where `test` is
non-zero, the input elsewhere. -/
def where_ (input test value : ℚ) : ℚ := if test ≠ 0 then value else input

end Px

/-! ## Section 2 of the script: the drainage proxy -/

/-- Line 48: `drainage = slope.multiply(1.5)`. -/
def drainage (slope : ℚ) : ℚ := Px.multiply slope 1.5

/-! ## Section 3 of the script: normalisation and weighted overlay -/

/-- Line 64: `slopeN = slope.unitScale(0, 60).clamp(0,1)`. -/
def slopeN (slope : ℚ) : ℚ := Px.clamp (Px.unitScale slope 0 60) 0 1

/-- Line 65: `rainN = rainfall.unitScale(0, 2500).clamp(0,1)`. -/
def rainN (rainfall : ℚ) : ℚ := Px.clamp (Px.unitScale rainfall 0 2500) 0 1

/-- Line 66: `ndviN = ndvi.unitScale(-0.2, 0.8).clamp(0,1).multiply(-1).add(1)`. -/
def ndviN (ndvi : ℚ) : ℚ :=
  Px.add (Px.multiply (Px.clamp (Px.unitScale ndvi (-0.2) 0.8) 0 1) (-1)) 1

/-- Line 67: `geoN = geology.unitScale(0, 150).clamp(0,1)`. -/
def geoN (geology : ℚ) : ℚ := Px.clamp (Px.unitScale geology 0 150) 0 1

/-- Line 68: `drainN = drainage.unitScale(0, 120).clamp(0,1)`. -/
def drainN (drainage : ℚ) : ℚ := Px.clamp (Px.unitScale drainage 0 120) 0 1

/-- Lines 70-77: `lsi = ee.Image(0).add(slopeN.multiply(0.30)).add(rainN.multiply(0.22))
.add(ndviN.multiply(0.18)).add(geoN.multiply(0.15)).add(drainN.multiply(0.15))`,
as a function of the five band values at the cell. -/
def lsi (slope rainfall ndvi geology drainage : ℚ) : ℚ :=
  Px.add (Px.add (Px.add (Px.add (Px.add 0
    (Px.multiply (slopeN slope) 0.30))
    (Px.multiply (rainN rainfall) 0.22))
    (Px.multiply (ndviN ndvi) 0.18))
    (Px.multiply (geoN geology) 0.15))
    (Px.multiply (drainN drainage) 0.15)

/-- Lines 87-91: `weightedRisk = ee.Image(1).where(lsi.gt(0.25).and(lsi.lte(0.6)), 2)
.where(lsi.gt(0.6), 3)`, as a function of the value of `lsi` at the cell. -/
def weightedRisk (lsi : ℚ) : ℚ :=
  Px.where_ (Px.where_ 1 (Px.and (Px.gt lsi 0.25) (Px.lte lsi 0.6)) 2) (Px.gt lsi 0.6) 3

/-! ## Forecast path: rainfall substitution and recomputed overlay -/

/-- Line 238: `rainN_forecast = ee.Image(forecastRainfall).unitScale(0, 200).clamp(0,1)`. -/
def rainN_forecast (forecastRainfall : ℚ) : ℚ :=
  Px.clamp (Px.unitScale forecastRainfall 0 200) 0 1

/-- Lines 240-247: `lsi_forecast = ee.Image(0).add(slopeN.multiply(0.30))
.add(rainN_forecast.multiply(0.22)).add(ndviN.multiply(0.18)).add(geoN.multiply(0.15))
.add(drainN.multiply(0.15))`; `slopeN`, `ndviN`, `geoN`, `drainN` are the baseline
images of lines 64-68. -/
def lsi_forecast (slope forecastRainfall ndvi geology drainage : ℚ) : ℚ :=
  Px.add (Px.add (Px.add (Px.add (Px.add 0
    (Px.multiply (slopeN slope) 0.30))
    (Px.multiply (rainN_forecast forecastRainfall) 0.22))
    (Px.multiply (ndviN ndvi) 0.18))
    (Px.multiply (geoN geology) 0.15))
    (Px.multiply (drainN drainage) 0.15)

/-- Lines 257-261: `weightedRisk_forecast = ee.Image(1)
.where(lsi.gt(0.25).and(lsi.lte(0.6)), 2).where(lsi.gt(0.6), 3)`.  Both tests
read the image `lsi` of line 70, so the argument is the value of the baseline
index at the cell. -/
def weightedRisk_forecast (lsi : ℚ) : ℚ :=
  Px.where_ (Px.where_ 1 (Px.and (Px.gt lsi 0.25) (Px.lte lsi 0.6)) 2) (Px.gt lsi 0.6) 3

/-! ## The script's surfaces at one cell of the study region -/

/-- Values at one cell of the source rasters the script starts from: `dem`,
`slope`, `rainfall`, `ndvi`, `geology` (lines 15-45). -/
structure Cell where
  elevation : ℚ
  slope : ℚ
  rainfall : ℚ
  ndvi : ℚ
  geology : ℚ
  deriving DecidableEq

namespace Cell

/-- Value of the image `drainage` (line 48) at the cell. -/
def drainage (c : Cell) : ℚ := SafeHills.drainage c.slope

/-- Value of the image `lsi` (line 70) at the cell. -/
def lsi (c : Cell) : ℚ := SafeHills.lsi c.slope c.rainfall c.ndvi c.geology c.drainage

/-- Value of the image `weightedRisk` (line 87) at the cell. -/
def weightedRisk (c : Cell) : ℚ := SafeHills.weightedRisk c.lsi

/-- Value of the image `lsi_forecast` (line 240) at the cell, for the value
`forecastRainfall` of the forecast rainfall image there. -/
def lsi_forecast (c : Cell) (forecastRainfall : ℚ) : ℚ :=
  SafeHills.lsi_forecast c.slope forecastRainfall c.ndvi c.geology c.drainage

/-- Value of the image `weightedRisk_forecast` (line 257) at the cell: it is
built from `lsi`, and the forecast rainfall does not enter. -/
def weightedRisk_forecast (c : Cell) : ℚ := SafeHills.weightedRisk_forecast c.lsi

end Cell

/-! ## Band stacks and the forecast rainfall source -/

/-- An image seen at one cell: its bands in order, each with its name and its
value at the cell. -/
abbrev Image := List (String × ℚ)

namespace Image

/-- A single-band image, as produced by `.rename(name)` on a one-band source. -/
def band (name : String) (v : ℚ) : Image := [(name, v)]

/-- Result of `img.bandNames()`. -/
def bandNames (img : Image) : List String := img.map Prod.fst

/-- Result of `img.rename(names)`: the bands get the new names by position; the
request fails unless there are as many names as bands. -/
def rename (img : Image) (names : List String) : Option Image :=
  if names.length = img.length then some (names.zip (img.map Prod.snd)) else none

/-- Result of `ee.Image.cat(images)`: the bands of all images, in order (no
band name repeats in the stacks built by the script). -/
def cat (images : List Image) : Image := images.flatten

/-- Result of `img.select(names)`: the named bands in the order asked for; the
request fails when a name matches no band. -/
def select (img : Image) : List String → Option Image
  | [] => some []
  | n :: names =>
    match img.find? (fun b => b.1 = n), select img names with
    | some b, some rest => some (b :: rest)
    | _, _ => none

end Image

/-- Lines 195-200: `getFallbackPrecipitationData` returns
`rainfall.multiply(0.05).rename('rainfall')`. -/
def getFallbackPrecipitationData (rainfall : ℚ) : Image :=
  Image.band "rainfall" (Px.multiply rainfall 0.05)

/-- Lines 160-192: `getForecastPrecipitationData`, as the image the returned
request evaluates to (`none`: the evaluation fails).  `asset` is the image
stored under `assetId`, `none` when no such asset exists.  Inside the `try`,
`ee.Image(assetId)`, `bandNames()`, `size().gt(0)` and `ee.Algorithms.If` only
build a deferred request and do not throw, so the function always returns
`ee.Image(precipitationData).clip(studyRegion)` and the `catch` branch of lines
188-191 is never entered.  On evaluation a missing asset makes the request
fail; for an existing asset `assetExists = bandNames.size().gt(0)` selects
`forecastImage.rename('rainfall')` or `getFallbackPrecipitationData()`. -/
def getForecastPrecipitationData (asset : Option Image) (rainfall : ℚ) : Option Image :=
  match asset with
  | none => none
  | some forecastImage =>
    let bandNames := Image.bandNames forecastImage
    let assetExists : Bool := decide (bandNames.length > 0)
    if assetExists then Image.rename forecastImage ["rainfall"]
    else some (getFallbackPrecipitationData rainfall)

/-- Lines 51-59: `predictors = ee.Image.cat([dem, slope, rainfall, ndvi, geology, drainage])
.select(['elevation','slope','rainfall','ndvi','geology','drainage'])`, each
source image being a single band renamed as in lines 15-48. -/
def predictors (c : Cell) : Option Image :=
  Image.select
    (Image.cat [Image.band "elevation" c.elevation, Image.band "slope" c.slope,
      Image.band "rainfall" c.rainfall, Image.band "ndvi" c.ndvi,
      Image.band "geology" c.geology, Image.band "drainage" c.drainage])
    ["elevation", "slope", "rainfall", "ndvi", "geology", "drainage"]

/-- Lines 264-271: `predictors_forecast = ee.Image.cat([dem, slope,
ee.Image(forecastRainfall), ndvi, geology, drainage])
.select(['elevation','slope','rainfall','ndvi','geology','drainage'])`. -/
def predictors_forecast (c : Cell) (forecastRainfall : Image) : Option Image :=
  Image.select
    (Image.cat [Image.band "elevation" c.elevation, Image.band "slope" c.slope,
      forecastRainfall, Image.band "ndvi" c.ndvi,
      Image.band "geology" c.geology, Image.band "drainage" c.drainage])
    ["elevation", "slope", "rainfall", "ndvi", "geology", "drainage"]

/-! ## Sections 4 to 9 of the script: labels, samples, split, classifier -/

/-- A property value of a feature: a number or a text. -/
inductive Value where
  | num (q : ℚ)
  | str (s : String)
  deriving DecidableEq

/-- Line 10: `classProperty = 'risk_class'`. -/
def classProperty : String := "risk_class"

/-- A feature of `trainingPoints`: a point (longitude, latitude) and its
property dictionary; a property whose value is null has no entry. -/
structure Feature where
  geometry : ℚ × ℚ
  properties : List (String × Value)
  deriving DecidableEq

namespace Feature

/-- Result of `f.get(key)`; `none` is null. -/
def get (f : Feature) (key : String) : Option Value :=
  (f.properties.find? (fun p => p.1 = key)).map Prod.snd

end Feature

/-- Result of `dict.set(key, value)`: the entry is replaced, or added when the
key is new. -/
def Dictionary.set (d : List (String × Value)) (key : String) (v : Value) :
    List (String × Value) :=
  if d.any (fun p => p.1 = key) then d.map (fun p => if p.1 = key then (key, v) else p)
  else d ++ [(key, v)]

/-- A row of `trainingSamples`: the point, the six band values of `predictors`
under it, and the one property copied over (`properties: [classProperty]`). -/
structure Sample where
  geometry : ℚ × ℚ
  bands : Image
  risk_class : Option Value
  deriving DecidableEq

/-- The services of the platform the script calls in sections 4 to 9, which it
does not define itself. -/
structure Platform (Model Matrix : Type) where
  /-- Test of `filterBounds(studyRegion)`. -/
  inRegion : Feature → Bool
  /-- `ee.Number.parse`; `none` when the request fails. -/
  parse : Value → Option ℚ
  /-- The cell of the stack under a point at `scale: 100`; `none` when there is
  no valid pixel there. -/
  cellAt : Feature → Option Cell
  /-- The value `randomColumn('rand', 42)` gives a sample. -/
  rnd : Sample → ℚ
  /-- `ee.Classifier.smileRandomForest(..).train(..)` on a feature collection. -/
  train : List (Sample × ℚ) → Model
  /-- The class a fitted model gives a vector of band values. -/
  classify : Model → Image → ℚ
  /-- `errorMatrix(classProperty, 'classification')` on the pairs (actual label,
  predicted class) of a classified collection. -/
  errorMatrix : List (Option Value × ℚ) → Matrix

section Training

variable {Model Matrix : Type} (P : Platform Model Matrix)

/-- Lines 96-102, the function mapped over `trainingPoints`:
`rc = f.get(classProperty)`, then
`ee.Algorithms.If(ee.Algorithms.IsEqual(rc, null), f,
ee.Feature(f.geometry(), f.toDictionary().set(classProperty, ee.Number.parse(rc))))`. -/
def prepareLabel (f : Feature) : Option Feature :=
  let rc := f.get classProperty
  match rc with
  | none => some f
  | some v =>
    match P.parse v with
    | none => none
    | some q => some ⟨f.geometry, Dictionary.set f.properties classProperty (Value.num q)⟩

/-- The label preparation on a whole collection (`trainingPoints.map(..)`); it
fails when it fails on one feature. -/
def prepareLabels : List Feature → Option (List Feature)
  | [] => some []
  | f :: fs =>
    match prepareLabel P f, prepareLabels fs with
    | some g, some gs => some (g :: gs)
    | _, _ => none

/-- Lines 95-103: `trainingPoints` after `filterBounds(studyRegion)` and the
label preparation. -/
def trainingPoints (imported : List Feature) : Option (List Feature) :=
  prepareLabels P (imported.filter P.inRegion)

/-- Line 106: `classHist = trainingPoints.aggregate_histogram(classProperty)`:
each distinct label present with its number of points. -/
def classHist (trainingPoints : List Feature) : List (Value × Nat) :=
  let labels := trainingPoints.filterMap (fun f => f.get classProperty)
  labels.dedup.map (fun v => (v, labels.count v))

/-- Line 108: `numClasses = ee.Number(ee.List(classHist.keys()).size())`. -/
def numClasses (trainingPoints : List Feature) : Nat :=
  ((classHist trainingPoints).map Prod.fst).length

/-- Lines 111-122: `trainingFinal = trainingPoints` and
`trainingSamples = predictors.sampleRegions(collection: trainingFinal,
properties: [classProperty], scale: 100, ..)`: one sample for each point that
has a pixel in the stack. -/
def trainingSamples (trainingFinal : List Feature) : List Sample :=
  trainingFinal.filterMap (fun f =>
    match P.cellAt f with
    | none => none
    | some c => (predictors c).map (fun bands => ⟨f.geometry, bands, f.get classProperty⟩))

/-- Line 128: `withRand = trainingSamples.randomColumn('rand', 42)`. -/
def withRand (trainingSamples : List Sample) : List (Sample × ℚ) :=
  trainingSamples.map (fun s => (s, P.rnd s))

/-- Line 129: `trainSet = withRand.filter(ee.Filter.lt('rand', 0.7))`. -/
def trainSet (withRand : List (Sample × ℚ)) : List (Sample × ℚ) :=
  withRand.filter (fun s => decide (s.2 < 0.7))

/-- Line 130: `testSet = withRand.filter(ee.Filter.gte('rand', 0.7))`. -/
def testSet (withRand : List (Sample × ℚ)) : List (Sample × ℚ) :=
  withRand.filter (fun s => decide (s.2 ≥ 0.7))

/-- Lines 134-143: `classifier = ee.Classifier.smileRandomForest(..).train(features: trainSet, ..)`. -/
def classifier (withRand : List (Sample × ℚ)) : Model :=
  P.train (trainSet withRand)

/-- Line 148: `mlPrediction = predictors.classify(classifier)` at a cell. -/
def mlPrediction (withRand : List (Sample × ℚ)) (c : Cell) : Option ℚ :=
  (predictors c).map (P.classify (classifier P withRand))

/-- Line 151: `classifiedTest = testSet.classify(classifier)`, kept as the
pairs (actual label, predicted class) that `errorMatrix` reads. -/
def classifiedTest (withRand : List (Sample × ℚ)) : List (Option Value × ℚ) :=
  (testSet withRand).map (fun s =>
    (s.1.risk_class, P.classify (classifier P withRand) s.1.bands))

/-- Line 152: `errMatrix = classifiedTest.errorMatrix(classProperty, 'classification')`. -/
def errMatrix (withRand : List (Sample × ℚ)) : Matrix :=
  P.errorMatrix (classifiedTest P withRand)

/-- Line 275: `mlPrediction_forecast = predictors_forecast.classify(classifier)`
at a cell, for the forecast rainfall image. -/
def mlPrediction_forecast (withRand : List (Sample × ℚ)) (c : Cell)
    (forecastRainfall : Image) : Option ℚ :=
  (predictors_forecast c forecastRainfall).map (P.classify (classifier P withRand))

end Training

/-! ## Zonal statistics: `calculateRiskAreas` and `calculateForecastRiskAreas` -/

/-- Value of `a.eq(b)` at a cell: 1 when equal, else 0. -/
def Px.eq (a b : ℚ) : ℚ := if a = b then 1 else 0

/-- Value of `img.divide(k)` at a cell. -/
def Px.divide (v k : ℚ) : ℚ := v / k

/-- A pixel of `studyRegion` as the area reducers see it: the values of
`mlPrediction` and `mlPrediction_forecast` there and of `ee.Image.pixelArea()`
(square metres). -/
structure RegionPixel where
  ml_prediction : ℚ
  ml_prediction_forecast : ℚ
  pixelArea : ℚ

/-- Line 663: `pixelArea = ee.Image.pixelArea().divide(1e6)`. -/
def pixelAreaKm2 (p : RegionPixel) : ℚ := Px.divide p.pixelArea 1e6

/-- Lines 664-670: `mlPrediction.eq(c).multiply(pixelArea)` reduced over the
region with `ee.Reducer.sum()`; `c` is 1 for `lowArea`, 2 for `medArea`, 3 for
`highArea`. -/
def classArea (region : List RegionPixel) (c : ℚ) : ℚ :=
  (region.map (fun p => Px.multiply (Px.eq p.ml_prediction c) (pixelAreaKm2 p))).sum

/-- Lines 699-706: `mlPrediction_forecast.eq(c).multiply(pixelArea)` reduced
over the region with `ee.Reducer.sum()`. -/
def classArea_forecast (region : List RegionPixel) (c : ℚ) : ℚ :=
  (region.map (fun p => Px.multiply (Px.eq p.ml_prediction_forecast c) (pixelAreaKm2 p))).sum

/-- The JavaScript expression `x || 0` on an area that is a number or null. -/
def orZero (x : Option ℚ) : ℚ :=
  match x with
  | none => 0
  | some v => if v ≠ 0 then v else 0

/-- The integer nearest to `y`, the even one of the two when `y` is halfway. -/
def roundTiesEven (y : ℚ) : ℤ :=
  let f := ⌊y⌋
  let r := y - f
  if r < 1/2 then f else if 1/2 < r then f + 1 else if f % 2 = 0 then f else f + 1

/-- The JavaScript number (IEEE 754 double) nearest to the exact value `x`: 53
significant bits, ties to even.  The exponent is not bounded, so overflow to
Infinity and gradual underflow are outside this model. -/
def binary64 (x : ℚ) : ℚ :=
  if x = 0 then 0
  else
    let e := Int.log 2 |x|
    (roundTiesEven (x / 2 ^ (e - 52)) : ℚ) * 2 ^ (e - 52)

namespace Js

/-- The JavaScript expression `a + b` on numbers. -/
def add (a b : ℚ) : ℚ := binary64 (a + b)

/-- The JavaScript expression `a * b` on numbers. -/
def mul (a b : ℚ) : ℚ := binary64 (a * b)

/-- The JavaScript expression `a / b` on numbers; `none` when the divisor is
zero, where the result is NaN or an infinity and not a number. -/
def div (a b : ℚ) : Option ℚ := if b = 0 then none else some (binary64 (a / b))

end Js

/-- What the callback of `calculateRiskAreas` computes from the dictionary; a
percentage is `none` when it is not a number. -/
structure RiskAreas where
  low : ℚ
  med : ℚ
  high : ℚ
  total : ℚ
  lowPct : Option ℚ
  medPct : Option ℚ
  highPct : Option ℚ

/-- Lines 672-682, the callback of `calculateRiskAreas` on a dictionary that is
not null: `low = dict.low || 0` and so on, `total = low + med + high`,
`lowPct = total ? (low / total * 100) : 0` and so on, in JavaScript number
arithmetic. -/
def calculateRiskAreas (dictLow dictMed dictHigh : Option ℚ) : RiskAreas :=
  let low := orZero dictLow
  let med := orZero dictMed
  let high := orZero dictHigh
  let total := Js.add (Js.add low med) high
  let lowPct := if total ≠ 0 then (Js.div low total).map (fun q => Js.mul q 100) else some 0
  let medPct := if total ≠ 0 then (Js.div med total).map (fun q => Js.mul q 100) else some 0
  let highPct := if total ≠ 0 then (Js.div high total).map (fun q => Js.mul q 100) else some 0
  ⟨low, med, high, total, lowPct, medPct, highPct⟩

/-! ## Point inspector: `Map.onClick` and `displayInspectorData` -/

/-- A piece of the text of a label: literal text, or a number printed with
`toFixed(digits)`. -/
inductive Part where
  | text (s : String)
  | fixed (v : ℚ) (digits : Nat)
  deriving DecidableEq

/-- The text of a `ui.Label`. -/
abbrev LabelText := List Part

/-- A widget added to `inspectorBox`: a label, or a panel with its labels. -/
inductive Widget where
  | label (t : LabelText)
  | panel (items : List LabelText)
  deriving DecidableEq

/-- The dictionary a point query evaluates to (lines 730-750): the mean of each
of the thirteen bands over the buffer; `none` is a null or missing entry. -/
structure PointQueryResult where
  elevation : Option ℚ
  slope : Option ℚ
  precipitation : Option ℚ
  ndvi : Option ℚ
  geology : Option ℚ
  drainage : Option ℚ
  LSI : Option ℚ
  ML_Pred : Option ℚ
  Weighted_Risk : Option ℚ
  rainfall_forecast : Option ℚ
  LSI_forecast : Option ℚ
  ML_Pred_forecast : Option ℚ
  Weighted_Risk_forecast : Option ℚ
  deriving DecidableEq

/-- The coordinates of a click. -/
structure Coords where
  lon : ℚ
  lat : ℚ
  deriving DecidableEq

/-- The widgets the inspector writes to: the inspector box and the eight
sidebar labels it sets. -/
structure UI where
  inspectorBox : List Widget
  realPrecipitationLabel : LabelText
  realRainLabel : LabelText
  realProbabilityLabel : LabelText
  realHoursLabel : LabelText
  rainForecastValueLabel : LabelText
  lsiForecastValueLabel : LabelText
  mlForecastValueLabel : LabelText
  wRiskForecastValueLabel : LabelText
  deriving DecidableEq

/-- The pattern `if (result[k] !== null && result[k] !== undefined)
panel.add(ui.Label(caption + result[k].toFixed(digits) + suffix))`: the labels
it adds. -/
def optLine (caption : String) (v : Option ℚ) (digits : Nat) (suffix : String) :
    List LabelText :=
  match v with
  | none => []
  | some x => [[Part.text caption, Part.fixed x digits, Part.text suffix]]

/-- Lines 780-785: the labels of `terrainPanel`. -/
def terrainPanel (result : PointQueryResult) : List LabelText :=
  optLine "Elevation: " result.elevation 0 " m" ++ optLine "Slope: " result.slope 1 "°"

/-- Lines 794-801: the labels of `envPanel`. -/
def envPanel (result : PointQueryResult) : List LabelText :=
  optLine "NDVI: " result.ndvi 2 "" ++ optLine "Geology: " result.geology 1 ""
    ++ optLine "Drainage: " result.drainage 1 ""

/-- Lines 810-817: the labels of `baselinePanel`. -/
def baselinePanel (result : PointQueryResult) : List LabelText :=
  optLine "LSI: " result.LSI 3 "" ++ optLine "ML Prediction: " result.ML_Pred 0 ""
    ++ optLine "Weighted Risk: " result.Weighted_Risk 0 ""

/-- Lines 827-857: what is added to `inspectorBox` for the `precipitation`
entry: `precipPanel` when it is present, one text label when it is not. -/
def precipWidget (result : PointQueryResult) : Widget :=
  match result.precipitation with
  | some p =>
    Widget.panel
      [[Part.text "Precipitation Data:"],
       [Part.text "  Total Precipitation: ", Part.fixed p 1, Part.text " mm"],
       [Part.text "  Rain Only (est): ", Part.fixed (p * 0.85) 1, Part.text " mm"],
       [Part.text "  Probability (est): ", Part.fixed (min (p * 20) 95) 0, Part.text "%"],
       [Part.text "  Duration (est): ", Part.fixed (min (p * 3) 12) 1, Part.text " hours"]]
  | none => Widget.label [Part.text "No precipitation data available"]

/-- Lines 860-880: the labels of `forecastPanel`. -/
def forecastPanel (result : PointQueryResult) : List LabelText :=
  optLine "Precipitation: " result.rainfall_forecast 1 " mm"
    ++ optLine "LSI: " result.LSI_forecast 3 ""
    ++ optLine "ML Prediction: " result.ML_Pred_forecast 0 ""
    ++ optLine "Weighted Risk: " result.Weighted_Risk_forecast 0 ""

/-- The pattern `if (result[k] !== null && result[k] !== undefined)
label.setValue(caption + result[k].toFixed(digits) + suffix)`: the new text of
the label. -/
def optSet (old : LabelText) (caption : String) (v : Option ℚ) (digits : Nat)
    (suffix : String) : LabelText :=
  match v with
  | none => old
  | some x => [Part.text caption, Part.fixed x digits, Part.text suffix]

/-- Lines 764-890: `displayInspectorData(result, coords)`.  The box is cleared
and refilled; the four precipitation labels of the sidebar are set from
`precipitation`, or reset to their zero texts when it is absent; the four
forecast labels are set from the entries that are present. -/
def displayInspectorData (result : PointQueryResult) (coords : Coords) (ui : UI) : UI where
  inspectorBox :=
    [Widget.label [Part.text "Coordinates: ", Part.fixed coords.lon 4, Part.text ", ",
        Part.fixed coords.lat 4],
      Widget.label [Part.text " "],
      Widget.label [Part.text "--- TERRAIN FACTORS ---"],
      Widget.panel (terrainPanel result),
      Widget.label [Part.text " "],
      Widget.label [Part.text "--- ENVIRONMENTAL FACTORS ---"],
      Widget.panel (envPanel result),
      Widget.label [Part.text " "],
      Widget.label [Part.text "--- MONSOON BASELINE RISK ---"],
      Widget.panel (baselinePanel result),
      Widget.label [Part.text " "],
      Widget.label [Part.text "--- NEXT 7 DAYS ---"],
      precipWidget result,
      Widget.label [Part.text " "],
      Widget.panel (forecastPanel result),
      Widget.label [Part.text " "],
      Widget.label
        [Part.text "YOUR Open-Meteo API data loaded! Click elsewhere for new values."]]
  realPrecipitationLabel :=
    match result.precipitation with
    | some p => [Part.text "Total Precipitation: ", Part.fixed p 1, Part.text " mm"]
    | none => [Part.text "Total Precipitation: 0.0 mm"]
  realRainLabel :=
    match result.precipitation with
    | some p => [Part.text "Rain Only: ", Part.fixed (p * 0.85) 1, Part.text " mm"]
    | none => [Part.text "Rain Only: 0.0 mm"]
  realProbabilityLabel :=
    match result.precipitation with
    | some p =>
      [Part.text "Precipitation Probability: ", Part.fixed (min (p * 20) 95) 0, Part.text "%"]
    | none => [Part.text "Precipitation Probability: 0%"]
  realHoursLabel :=
    match result.precipitation with
    | some p =>
      [Part.text "Precipitation Hours: ", Part.fixed (min (p * 3) 12) 1, Part.text " hrs"]
    | none => [Part.text "Precipitation Hours: 0.0 hrs"]
  rainForecastValueLabel :=
    optSet ui.rainForecastValueLabel "Rainfall Recent: " result.rainfall_forecast 1 " mm"
  lsiForecastValueLabel :=
    optSet ui.lsiForecastValueLabel "LSI Recent: " result.LSI_forecast 3 ""
  mlForecastValueLabel :=
    optSet ui.mlForecastValueLabel "ML Recent: " result.ML_Pred_forecast 0 ""
  wRiskForecastValueLabel :=
    optSet ui.wRiskForecastValueLabel "Weighted Risk Recent: " result.Weighted_Risk_forecast 0 ""

/-- What happens to the inspector: a click at some coordinates, or the arrival
of the result of the query issued by the click at those coordinates (`none`
when `evaluate` hands the callback no dictionary). -/
inductive InspectorEvent where
  | click (coords : Coords)
  | arrive (coords : Coords) (result : Option PointQueryResult)

/-- Lines 722-724: the synchronous part of the `Map.onClick` handler; the query
it issues is answered later by an `arrive` event. -/
def onClick (_coords : Coords) (ui : UI) : UI :=
  { ui with inspectorBox := [Widget.label [Part.text "Loading..."]] }

/-- Lines 753-760: the callback of `allData.evaluate` in the handler of the
click at `coords`: `if (result) displayInspectorData(result, coords)`, else the
box is cleared and gets one text label. -/
def onResult (coords : Coords) (result : Option PointQueryResult) (ui : UI) : UI :=
  match result with
  | some r => displayInspectorData r coords ui
  | none =>
    { ui with inspectorBox := [Widget.label [Part.text "No data available at this location"]] }

/-- One event applied to the widgets. -/
def inspectorStep (ui : UI) (e : InspectorEvent) : UI :=
  match e with
  | InspectorEvent.click coords => onClick coords ui
  | InspectorEvent.arrive coords result => onResult coords result ui

/-- The widgets after a sequence of events, in the order they happen. -/
def inspectorRun (ui : UI) (events : List InspectorEvent) : UI :=
  events.foldl inspectorStep ui

/-! ## Concrete inputs used in the evaluations -/

/-- A platform instance for concrete runs: every point is in the region and
lies on the cell with elevation 1000, slope 40, rainfall 1200, vegetation
index 0.3, roughness 60; a numeric label parses to itself; every sample gets
the split value `r`; the fitted model is the collection handed to the trainer,
and the confusion matrix is the list of pairs handed to it. -/
def examplePlatform (r : ℚ) : Platform (List (Sample × ℚ)) (List (Option Value × ℚ)) where
  inRegion := fun _ => true
  parse := fun v =>
    match v with
    | Value.num q => some q
    | Value.str _ => none
  cellAt := fun _ => some ⟨1000, 40, 1200, 0.3, 60⟩
  rnd := fun _ => r
  train := fun features => features
  classify := fun _ _ => 1
  errorMatrix := fun pairs => pairs

/-- The band values of `predictors` on the cell of `examplePlatform`. -/
def exampleBands : Image :=
  [("elevation", 1000), ("slope", 40), ("rainfall", 1200), ("ndvi", 0.3), ("geology", 60),
    ("drainage", 60)]

/-- A point at longitude 79, latitude 30 with label 1. -/
def labelledPoint : Feature := ⟨(79, 30), [("risk_class", Value.num 1)]⟩

/-- A point at longitude 79.5, latitude 30.5 with label 1. -/
def labelledPoint2 : Feature := ⟨(79.5, 30.5), [("risk_class", Value.num 1)]⟩

/-- A point at longitude 78, latitude 31 whose `risk_class` is null. -/
def unlabelledPoint : Feature := ⟨(78, 31), []⟩

/-- The widgets before any click: the box holds the invitation of line 646 and
the sidebar labels their initial texts. -/
def initialUI : UI where
  inspectorBox := [Widget.label [Part.text "Click on map to get values"]]
  realPrecipitationLabel := [Part.text "Total Precipitation: -- mm"]
  realRainLabel := [Part.text "Rain Only: -- mm"]
  realProbabilityLabel := [Part.text "Precipitation Probability: -- %"]
  realHoursLabel := [Part.text "Precipitation Hours: -- hrs"]
  rainForecastValueLabel := [Part.text "Rainfall Recent: -- mm"]
  lsiForecastValueLabel := [Part.text "LSI Recent: --"]
  mlForecastValueLabel := [Part.text "ML Recent: --"]
  wRiskForecastValueLabel := [Part.text "Weighted Risk Recent: --"]

/-- A query result with the given elevation and every other entry null. -/
def resultWithElevation (e : ℚ) : PointQueryResult :=
  ⟨some e, none, none, none, none, none, none, none, none, none, none, none, none⟩

/-! ## Theorems -/

/-! ### Helper lemmas on the normalisers -/

theorem clamp01_eq (x : ℚ) : Px.clamp x 0 1 = min 1 (max 0 x) := by
  unfold Px.clamp
  rcases le_total x 0 with h0 | h0
  · have h1 : x ≤ 1 := le_trans h0 zero_le_one
    simp [h0, h1]
  · rcases le_total x 1 with h1 | h1
    · simp [h0, h1]
    · simp [h0, h1]

theorem clamp01_nonneg (x : ℚ) : 0 ≤ Px.clamp x 0 1 := le_max_left _ _

theorem clamp01_le_one (x : ℚ) : Px.clamp x 0 1 ≤ 1 :=
  max_le zero_le_one (min_le_left _ _)

theorem clamp01_mono {x y : ℚ} (h : x ≤ y) : Px.clamp x 0 1 ≤ Px.clamp y 0 1 :=
  max_le_max le_rfl (min_le_min le_rfl h)

theorem ndviN_eq (v : ℚ) : ndviN v = 1 - Px.clamp (Px.unitScale v (-0.2) 0.8) 0 1 := by
  unfold ndviN Px.add Px.multiply
  ring

theorem ndviN_nonneg (v : ℚ) : 0 ≤ ndviN v := by
  rw [ndviN_eq]; linarith [clamp01_le_one (Px.unitScale v (-0.2) 0.8)]

theorem ndviN_le_one (v : ℚ) : ndviN v ≤ 1 := by
  rw [ndviN_eq]; linarith [clamp01_nonneg (Px.unitScale v (-0.2) 0.8)]

theorem lsi_eq (s r n g d : ℚ) :
    lsi s r n g d =
      0.30 * slopeN s + 0.22 * rainN r + 0.18 * ndviN n + 0.15 * geoN g + 0.15 * drainN d := by
  unfold lsi Px.add Px.multiply
  ring

theorem lsi_forecast_eq (s f n g d : ℚ) :
    lsi_forecast s f n g d =
      0.30 * slopeN s + 0.22 * rainN_forecast f + 0.18 * ndviN n + 0.15 * geoN g
        + 0.15 * drainN d := by
  unfold lsi_forecast Px.add Px.multiply
  ring

theorem threshold_eq (y : ℚ) :
    Px.where_ (Px.where_ 1 (Px.and (Px.gt y 0.25) (Px.lte y 0.6)) 2) (Px.gt y 0.6) 3 =
      if 0.6 < y then 3 else if 0.25 < y then 2 else 1 := by
  unfold Px.where_ Px.and Px.gt Px.lte
  by_cases h1 : 0.6 < y
  · simp [h1]
  · by_cases h2 : 0.25 < y
    · have h3 : y ≤ 0.6 := not_lt.mp h1
      simp [h1, h2, h3]
    · simp [h1, h2]

theorem unitScale_mono {lo hi x y : ℚ} (hlohi : lo < hi) (h : x ≤ y) :
    Px.unitScale x lo hi ≤ Px.unitScale y lo hi := by
  unfold Px.unitScale
  have hpos : 0 < hi - lo := sub_pos.mpr hlohi
  exact div_le_div_of_nonneg_right (by linarith) (le_of_lt hpos)

theorem norm_below {lo hi v : ℚ} (hlohi : lo < hi) (h : v ≤ lo) :
    Px.clamp (Px.unitScale v lo hi) 0 1 = 0 := by
  have hpos : 0 < hi - lo := sub_pos.mpr hlohi
  have h0 : Px.unitScale v lo hi ≤ 0 := by
    unfold Px.unitScale
    exact div_nonpos_of_nonpos_of_nonneg (by linarith) (le_of_lt hpos)
  rw [clamp01_eq, max_eq_left h0, min_eq_right zero_le_one]

theorem norm_above {lo hi v : ℚ} (hlohi : lo < hi) (h : hi ≤ v) :
    Px.clamp (Px.unitScale v lo hi) 0 1 = 1 := by
  have hpos : 0 < hi - lo := sub_pos.mpr hlohi
  have h1 : 1 ≤ Px.unitScale v lo hi := by
    unfold Px.unitScale
    rw [le_div_iff₀ hpos]
    linarith
  rw [clamp01_eq, max_eq_right (le_trans zero_le_one h1), min_eq_left h1]

/-! ### The claims -/

/-- C1: for every index value the baseline thresholded surface is exactly one
of the classes 1, 2, 3; it is 1 iff `x ≤ 0.25`, 2 iff `0.25 < x ≤ 0.6`, 3 iff
`x > 0.6`; the boundary 0.25 is class 1 and the boundary 0.6 is class 2. -/
theorem weightedRisk_partition (x : ℚ) :
    (weightedRisk x = 1 ∨ weightedRisk x = 2 ∨ weightedRisk x = 3) ∧
    (weightedRisk x = 1 ↔ x ≤ 0.25) ∧
    (weightedRisk x = 2 ↔ 0.25 < x ∧ x ≤ 0.6) ∧
    (weightedRisk x = 3 ↔ 0.6 < x) ∧
    weightedRisk 0.25 = 1 ∧ weightedRisk 0.6 = 2 := by
  have key : ∀ y : ℚ, weightedRisk y =
      if 0.6 < y then 3 else if 0.25 < y then 2 else 1 := fun y => threshold_eq y
  refine ⟨?_, ?_, ?_, ?_, ?_, ?_⟩
  · rw [key]; split_ifs <;> simp
  · rw [key]
    constructor
    · intro h
      split_ifs at h with h1 h2
      · norm_num at h
      · norm_num at h
      · exact not_lt.mp h2
    · intro h
      have h2 : ¬ (0.25 < x) := not_lt.mpr h
      have h1 : ¬ (0.6 < x) := fun h6 => h2 (lt_trans (by norm_num) h6)
      simp [h1, h2]
  · rw [key]
    constructor
    · intro h
      split_ifs at h with h1 h2
      · norm_num at h
      · exact ⟨h2, not_lt.mp h1⟩
      · norm_num at h
    · rintro ⟨h2, h3⟩
      have h1 : ¬ (0.6 < x) := not_lt.mpr h3
      simp [h1, h2]
  · rw [key]
    constructor
    · intro h
      split_ifs at h with h1 h2
      · exact h1
      · norm_num at h
      · norm_num at h
    · intro h
      simp [h]
  · rw [key]; norm_num
  · rw [key]; norm_num

/-- C2 (evaluation at a failing cell): at the cell with slope 0, rainfall 2500,
vegetation index 0.8 and roughness 75, with forecast rainfall 125, the forecast
index is 0.2125, so the threshold rule applied to it gives class 1, while the
surface `weightedRisk_forecast` built by the script is 2, the class of the
baseline index 0.295; at every cell that surface equals the baseline surface
`weightedRisk`. -/
theorem weightedRisk_forecast_reads_baseline :
    Cell.lsi_forecast ⟨0, 0, 2500, 0.8, 75⟩ 125 = 0.2125 ∧
    weightedRisk (Cell.lsi_forecast ⟨0, 0, 2500, 0.8, 75⟩ 125) = 1 ∧
    Cell.lsi ⟨0, 0, 2500, 0.8, 75⟩ = 0.295 ∧
    Cell.weightedRisk_forecast ⟨0, 0, 2500, 0.8, 75⟩ = 2 ∧
    (∀ c : Cell, Cell.weightedRisk_forecast c = Cell.weightedRisk c) := by
  have hf : Cell.lsi_forecast ⟨0, 0, 2500, 0.8, 75⟩ 125 = 0.2125 := by
    unfold Cell.lsi_forecast Cell.drainage drainage
    rw [lsi_forecast_eq, ndviN_eq]
    simp only [slopeN, rainN_forecast, geoN, drainN, Px.multiply, clamp01_eq, Px.unitScale]
    norm_num
  have hb : Cell.lsi ⟨0, 0, 2500, 0.8, 75⟩ = 0.295 := by
    unfold Cell.lsi Cell.drainage drainage
    rw [lsi_eq, ndviN_eq]
    simp only [slopeN, rainN, geoN, drainN, Px.multiply, clamp01_eq, Px.unitScale]
    norm_num
  refine ⟨hf, ?_, hb, ?_, fun _ => rfl⟩
  · rw [hf]; unfold weightedRisk; rw [threshold_eq]; norm_num
  · unfold Cell.weightedRisk_forecast weightedRisk_forecast
    rw [hb, threshold_eq]; norm_num

/-- C3: for all band values the baseline index and the forecast index lie in
the closed interval [0,1]. -/
theorem lsi_mem_unit_interval (slope rainfall forecastRainfall ndvi geology drainage : ℚ) :
    (0 ≤ lsi slope rainfall ndvi geology drainage ∧
      lsi slope rainfall ndvi geology drainage ≤ 1) ∧
    (0 ≤ lsi_forecast slope forecastRainfall ndvi geology drainage ∧
      lsi_forecast slope forecastRainfall ndvi geology drainage ≤ 1) := by
  rw [lsi_eq, lsi_forecast_eq]
  have s0 := clamp01_nonneg (Px.unitScale slope 0 60)
  have s1 := clamp01_le_one (Px.unitScale slope 0 60)
  have r0 := clamp01_nonneg (Px.unitScale rainfall 0 2500)
  have r1 := clamp01_le_one (Px.unitScale rainfall 0 2500)
  have f0 := clamp01_nonneg (Px.unitScale forecastRainfall 0 200)
  have f1 := clamp01_le_one (Px.unitScale forecastRainfall 0 200)
  have g0 := clamp01_nonneg (Px.unitScale geology 0 150)
  have g1 := clamp01_le_one (Px.unitScale geology 0 150)
  have d0 := clamp01_nonneg (Px.unitScale drainage 0 120)
  have d1 := clamp01_le_one (Px.unitScale drainage 0 120)
  have n0 := ndviN_nonneg ndvi
  have n1 := ndviN_le_one ndvi
  unfold slopeN rainN rainN_forecast geoN drainN
  refine ⟨⟨?_, ?_⟩, ⟨?_, ?_⟩⟩ <;> norm_num <;> linarith

/-- C4: every normaliser is the linear map of its declared range onto [0,1],
clamped: `min 1 (max 0 ((v - lo) / (hi - lo)))` for slope [0,60], baseline
rainfall [0,2500], forecast rainfall [0,200], roughness [0,150] and drainage
[0,120]; the vegetation band, range [-0.2,0.8], is 1 minus that value.  The
lower end maps to 0 and the upper end to 1 (1 and 0 for vegetation), and
values beyond an end get the value of that end. -/
theorem normalizer_clamped_linear (v : ℚ) :
    (slopeN v = min 1 (max 0 ((v - 0) / (60 - 0))) ∧
      rainN v = min 1 (max 0 ((v - 0) / (2500 - 0))) ∧
      rainN_forecast v = min 1 (max 0 ((v - 0) / (200 - 0))) ∧
      geoN v = min 1 (max 0 ((v - 0) / (150 - 0))) ∧
      drainN v = min 1 (max 0 ((v - 0) / (120 - 0))) ∧
      ndviN v = 1 - min 1 (max 0 ((v - (-0.2)) / (0.8 - (-0.2))))) ∧
    (slopeN 0 = 0 ∧ slopeN 60 = 1 ∧ rainN 0 = 0 ∧ rainN 2500 = 1 ∧
      rainN_forecast 0 = 0 ∧ rainN_forecast 200 = 1 ∧ geoN 0 = 0 ∧ geoN 150 = 1 ∧
      drainN 0 = 0 ∧ drainN 120 = 1 ∧ ndviN (-0.2) = 1 ∧ ndviN 0.8 = 0) ∧
    (slopeN (min v 0) = 0 ∧ slopeN (max v 60) = 1 ∧
      rainN (min v 0) = 0 ∧ rainN (max v 2500) = 1 ∧
      rainN_forecast (min v 0) = 0 ∧ rainN_forecast (max v 200) = 1 ∧
      geoN (min v 0) = 0 ∧ geoN (max v 150) = 1 ∧
      drainN (min v 0) = 0 ∧ drainN (max v 120) = 1 ∧
      ndviN (min v (-0.2)) = 1 ∧ ndviN (max v 0.8) = 0) := by
  refine ⟨⟨?_, ?_, ?_, ?_, ?_, ?_⟩, ⟨?_, ?_, ?_, ?_, ?_, ?_, ?_, ?_, ?_, ?_, ?_, ?_⟩,
    ⟨?_, ?_, ?_, ?_, ?_, ?_, ?_, ?_, ?_, ?_, ?_, ?_⟩⟩
  · unfold slopeN; rw [clamp01_eq]; rfl
  · unfold rainN; rw [clamp01_eq]; rfl
  · unfold rainN_forecast; rw [clamp01_eq]; rfl
  · unfold geoN; rw [clamp01_eq]; rfl
  · unfold drainN; rw [clamp01_eq]; rfl
  · rw [ndviN_eq, clamp01_eq]; rfl
  · exact norm_below (by norm_num) le_rfl
  · exact norm_above (by norm_num) le_rfl
  · exact norm_below (by norm_num) le_rfl
  · exact norm_above (by norm_num) le_rfl
  · exact norm_below (by norm_num) le_rfl
  · exact norm_above (by norm_num) le_rfl
  · exact norm_below (by norm_num) le_rfl
  · exact norm_above (by norm_num) le_rfl
  · exact norm_below (by norm_num) le_rfl
  · exact norm_above (by norm_num) le_rfl
  · rw [ndviN_eq, norm_below (by norm_num) le_rfl]; norm_num
  · rw [ndviN_eq, norm_above (by norm_num) le_rfl]; norm_num
  · exact norm_below (by norm_num) (min_le_right _ _)
  · exact norm_above (by norm_num) (le_max_right _ _)
  · exact norm_below (by norm_num) (min_le_right _ _)
  · exact norm_above (by norm_num) (le_max_right _ _)
  · exact norm_below (by norm_num) (min_le_right _ _)
  · exact norm_above (by norm_num) (le_max_right _ _)
  · exact norm_below (by norm_num) (min_le_right _ _)
  · exact norm_above (by norm_num) (le_max_right _ _)
  · exact norm_below (by norm_num) (min_le_right _ _)
  · exact norm_above (by norm_num) (le_max_right _ _)
  · rw [ndviN_eq, norm_below (by norm_num) (min_le_right _ _)]; norm_num
  · rw [ndviN_eq, norm_above (by norm_num) (le_max_right _ _)]; norm_num

/-- C5: with rainfall, vegetation index, roughness and drainage held fixed,
a larger slope value never gives a smaller index; the same holds when the
drainage band is the one the script derives from the slope. -/
theorem lsi_mono_slope (s1 s2 rainfall ndvi geology drainage : ℚ) (h : s1 ≤ s2) :
    lsi s1 rainfall ndvi geology drainage ≤ lsi s2 rainfall ndvi geology drainage ∧
    lsi s1 rainfall ndvi geology (SafeHills.drainage s1) ≤
      lsi s2 rainfall ndvi geology (SafeHills.drainage s2) := by
  have hs : slopeN s1 ≤ slopeN s2 :=
    clamp01_mono (unitScale_mono (by norm_num) h)
  have hd : drainN (SafeHills.drainage s1) ≤ drainN (SafeHills.drainage s2) := by
    refine clamp01_mono (unitScale_mono (by norm_num) ?_)
    unfold SafeHills.drainage Px.multiply
    linarith
  constructor
  · rw [lsi_eq, lsi_eq]; linarith
  · rw [lsi_eq, lsi_eq]; linarith

/-- Witness for C5 at slopes 10 ≤ 40 with rainfall 1200, vegetation index 0.3,
roughness 60 and drainage 50. -/
theorem lsi_mono_slope_witness :
    (10 : ℚ) ≤ 40 ∧
    lsi 10 1200 0.3 60 50 ≤ lsi 40 1200 0.3 60 50 ∧
    lsi 10 1200 0.3 60 (drainage 10) ≤ lsi 40 1200 0.3 60 (drainage 40) :=
  ⟨by norm_num, lsi_mono_slope 10 40 1200 0.3 60 50 (by norm_num)⟩

/-- C6: the index is the sum of the five normalised bands weighted 0.30,
0.22, 0.18, 0.15, 0.15; the weights sum to 1 (all five normalised bands at 1
give index 1); the forecast index has the same weights on the same terms, with
the forecast rainfall normalisation in the rainfall term. -/
theorem overlay_weights :
    (∀ s r n g d : ℚ, lsi s r n g d =
      0.30 * slopeN s + 0.22 * rainN r + 0.18 * ndviN n + 0.15 * geoN g + 0.15 * drainN d) ∧
    (∀ s f n g d : ℚ, lsi_forecast s f n g d =
      0.30 * slopeN s + 0.22 * rainN_forecast f + 0.18 * ndviN n + 0.15 * geoN g
        + 0.15 * drainN d) ∧
    (0.30 + 0.22 + 0.18 + 0.15 + 0.15 : ℚ) = 1 ∧
    lsi 60 2500 (-0.2) 150 120 = 1 ∧
    lsi_forecast 60 200 (-0.2) 150 120 = 1 := by
  have e1 : slopeN 60 = 1 := norm_above (by norm_num) le_rfl
  have e2 : rainN 2500 = 1 := norm_above (by norm_num) le_rfl
  have e3 : rainN_forecast 200 = 1 := norm_above (by norm_num) le_rfl
  have e4 : geoN 150 = 1 := norm_above (by norm_num) le_rfl
  have e5 : drainN 120 = 1 := norm_above (by norm_num) le_rfl
  have e6 : ndviN (-0.2) = 1 := by
    rw [ndviN_eq, norm_below (by norm_num) le_rfl]; norm_num
  refine ⟨lsi_eq, lsi_forecast_eq, by norm_num, ?_, ?_⟩
  · rw [lsi_eq, e1, e2, e4, e5, e6]; norm_num
  · rw [lsi_forecast_eq, e1, e3, e4, e5, e6]; norm_num

/-- C7: for slope 40, rainfall 1200, vegetation index 0.3, roughness 60 and
drainage 50 the baseline index is exactly 0.5181, which is within 0.001 of
0.518, and the thresholded class is 2. -/
theorem example_scenario :
    lsi 40 1200 0.3 60 50 = 0.5181 ∧
    |lsi 40 1200 0.3 60 50 - 0.518| ≤ 0.001 ∧
    weightedRisk (lsi 40 1200 0.3 60 50) = 2 := by
  have h : lsi 40 1200 0.3 60 50 = 0.5181 := by
    rw [lsi_eq, ndviN_eq]
    simp only [slopeN, rainN, geoN, drainN, clamp01_eq, Px.unitScale]
    norm_num
  refine ⟨h, ?_, ?_⟩
  · rw [h, abs_le]; constructor <;> norm_num
  · rw [h]; unfold weightedRisk; rw [threshold_eq]; norm_num

/-- C8 (evaluation at a failing input): when no asset exists under `assetId`
the forecast rainfall request fails, for baseline rainfall 100 and for every
other value, while the fallback would be one band named rainfall with value 5;
the fallback is used only for an existing asset with no bands, where the
value is 0.05 times the baseline rainfall.  An asset with at least one band is
renamed to rainfall, whatever the baseline rainfall is, so a one-band asset
keeps its own value. -/
theorem forecast_rainfall_missing_asset :
    getForecastPrecipitationData none 100 = none ∧
    getFallbackPrecipitationData 100 = [("rainfall", 5)] ∧
    (∀ r : ℚ, getForecastPrecipitationData none r = none) ∧
    (∀ r : ℚ, getForecastPrecipitationData (some []) r = some [("rainfall", 0.05 * r)]) ∧
    getForecastPrecipitationData (some []) 100 = some [("rainfall", 5)] ∧
    (∀ (b : String × ℚ) (bs : Image) (r : ℚ),
      getForecastPrecipitationData (some (b :: bs)) r = Image.rename (b :: bs) ["rainfall"]) ∧
    (∀ (n : String) (v r : ℚ),
      getForecastPrecipitationData (some [(n, v)]) r = some [("rainfall", v)]) := by
  have hnil : ∀ r : ℚ,
      getForecastPrecipitationData (some []) r = some [("rainfall", 0.05 * r)] := by
    intro r
    simp [getForecastPrecipitationData, getFallbackPrecipitationData, Image.band,
      Image.bandNames, Px.multiply, mul_comm]
  refine ⟨rfl, ?_, fun _ => rfl, hnil, ?_, ?_, ?_⟩
  · norm_num [getFallbackPrecipitationData, Image.band, Px.multiply]
  · rw [hnil]; norm_num
  · intro b bs r
    simp [getForecastPrecipitationData, Image.bandNames]
  · intro n v r
    simp [getForecastPrecipitationData, Image.bandNames, Image.rename]

/-- C9: the forecast index minus the baseline index is 0.22 times the
difference of the two normalised rainfall values, for all band values, and in
particular for the surfaces of the script at every cell. -/
theorem lsi_forecast_sub_lsi (slope rainfall forecastRainfall ndvi geology drainage : ℚ)
    (c : Cell) :
    lsi_forecast slope forecastRainfall ndvi geology drainage
        - lsi slope rainfall ndvi geology drainage
      = 0.22 * (rainN_forecast forecastRainfall - rainN rainfall) ∧
    Cell.lsi_forecast c forecastRainfall - Cell.lsi c
      = 0.22 * (rainN_forecast forecastRainfall - rainN c.rainfall) := by
  unfold Cell.lsi_forecast Cell.lsi
  constructor <;> (rw [lsi_eq, lsi_forecast_eq]; ring)

/-- An image returned by `getForecastPrecipitationData` is one band named
rainfall. -/
theorem forecast_single_band {asset : Option Image} {r : ℚ} {f : Image}
    (h : getForecastPrecipitationData asset r = some f) : ∃ v, f = [("rainfall", v)] := by
  cases asset with
  | none =>
    simp [getForecastPrecipitationData] at h
  | some img =>
    match img, h with
    | [], h =>
      simp [getForecastPrecipitationData, getFallbackPrecipitationData, Image.band,
        Image.bandNames] at h
      exact ⟨_, h.symm⟩
    | [b], h =>
      simp [getForecastPrecipitationData, Image.bandNames, Image.rename] at h
      exact ⟨_, h.symm⟩
    | _ :: _ :: _, h =>
      simp [getForecastPrecipitationData, Image.bandNames, Image.rename] at h

/-- C10: whenever the forecast rainfall image is available, it is one band
named rainfall, and the forecast stack is the baseline stack with the value of
that band in third place: both stacks have the band names elevation, slope,
rainfall, ndvi, geology, drainage in this order, and the five other bands have
the same values in both. -/
theorem predictors_forecast_bands (c : Cell) (asset : Option Image) (f : Image)
    (h : getForecastPrecipitationData asset c.rainfall = some f) :
    ∃ v : ℚ, f = [("rainfall", v)] ∧
      predictors c = some [("elevation", c.elevation), ("slope", c.slope),
        ("rainfall", c.rainfall), ("ndvi", c.ndvi), ("geology", c.geology),
        ("drainage", Cell.drainage c)] ∧
      predictors_forecast c f = some [("elevation", c.elevation), ("slope", c.slope),
        ("rainfall", v), ("ndvi", c.ndvi), ("geology", c.geology),
        ("drainage", Cell.drainage c)] ∧
      Option.map Image.bandNames (predictors c)
        = some ["elevation", "slope", "rainfall", "ndvi", "geology", "drainage"] ∧
      Option.map Image.bandNames (predictors_forecast c f)
        = some ["elevation", "slope", "rainfall", "ndvi", "geology", "drainage"] := by
  obtain ⟨v, rfl⟩ := forecast_single_band h
  have hp : predictors c = some [("elevation", c.elevation), ("slope", c.slope),
      ("rainfall", c.rainfall), ("ndvi", c.ndvi), ("geology", c.geology),
      ("drainage", Cell.drainage c)] := by
    simp [predictors, Image.select, Image.cat, Image.band, List.find?]
  have hf : predictors_forecast c [("rainfall", v)] = some [("elevation", c.elevation),
      ("slope", c.slope), ("rainfall", v), ("ndvi", c.ndvi), ("geology", c.geology),
      ("drainage", Cell.drainage c)] := by
    simp [predictors_forecast, Image.select, Image.cat, Image.band, List.find?]
  refine ⟨v, rfl, hp, hf, ?_, ?_⟩
  · rw [hp]; rfl
  · rw [hf]; rfl

/-- Witness for C10: the cell with elevation 1000, slope 40, rainfall 1200,
vegetation index 0.3 and roughness 60, with a forecast asset that has no bands. -/
theorem predictors_forecast_bands_witness :
    getForecastPrecipitationData (some []) (Cell.rainfall ⟨1000, 40, 1200, 0.3, 60⟩)
        = some [("rainfall", 60)] ∧
    ∃ v : ℚ, [("rainfall", (60 : ℚ))] = [("rainfall", v)] ∧
      predictors ⟨1000, 40, 1200, 0.3, 60⟩ = some [("elevation", 1000), ("slope", 40),
        ("rainfall", 1200), ("ndvi", 0.3), ("geology", 60),
        ("drainage", Cell.drainage ⟨1000, 40, 1200, 0.3, 60⟩)] ∧
      predictors_forecast ⟨1000, 40, 1200, 0.3, 60⟩ [("rainfall", 60)]
        = some [("elevation", 1000), ("slope", 40),
        ("rainfall", v), ("ndvi", 0.3), ("geology", 60),
        ("drainage", Cell.drainage ⟨1000, 40, 1200, 0.3, 60⟩)] ∧
      Option.map Image.bandNames (predictors ⟨1000, 40, 1200, 0.3, 60⟩)
        = some ["elevation", "slope", "rainfall", "ndvi", "geology", "drainage"] ∧
      Option.map Image.bandNames (predictors_forecast ⟨1000, 40, 1200, 0.3, 60⟩
          [("rainfall", 60)])
        = some ["elevation", "slope", "rainfall", "ndvi", "geology", "drainage"] :=
  have h0 : getForecastPrecipitationData (some []) (Cell.rainfall ⟨1000, 40, 1200, 0.3, 60⟩)
      = some [("rainfall", 60)] := by
    norm_num [getForecastPrecipitationData, getFallbackPrecipitationData, Image.band,
      Image.bandNames, Px.multiply]
  ⟨h0, predictors_forecast_bands ⟨1000, 40, 1200, 0.3, 60⟩ (some []) [("rainfall", 60)] h0⟩

/-- C11: every sample of `withRand` is in `trainSet` iff its split value is
below 0.7 and in `testSet` iff it is at least 0.7; it is in exactly one of the
two, and the two together are the whole collection.  The classifier is the
trainer applied to `trainSet`, so a sample with split value at least 0.7 does
not change it; the confusion matrix reads the classified `testSet`, so a
sample with split value below 0.7 adds no row to it. -/
theorem split_partition {Model Matrix : Type} (P : Platform Model Matrix)
    (w : List (Sample × ℚ)) (s : Sample × ℚ) (hs : s ∈ w) :
    (s ∈ trainSet w ↔ s.2 < 0.7) ∧
    (s ∈ testSet w ↔ s.2 ≥ 0.7) ∧
    ¬ (s ∈ trainSet w ∧ s ∈ testSet w) ∧
    (s ∈ trainSet w ∨ s ∈ testSet w) ∧
    (trainSet w ++ testSet w).Perm w ∧
    classifier P w = P.train (trainSet w) ∧
    errMatrix P w = P.errorMatrix ((testSet w).map (fun t =>
      (t.1.risk_class, P.classify (P.train (trainSet w)) t.1.bands))) ∧
    (∀ t : Sample × ℚ, t.2 ≥ 0.7 → classifier P (t :: w) = classifier P w) ∧
    (∀ t : Sample × ℚ, t.2 < 0.7 → testSet (t :: w) = testSet w) := by
  have htr : s ∈ trainSet w ↔ s.2 < 0.7 := by
    simp [trainSet, List.mem_filter, hs]
  have hte : s ∈ testSet w ↔ s.2 ≥ 0.7 := by
    simp [testSet, List.mem_filter, hs]
  refine ⟨htr, hte, ?_, ?_, ?_, rfl, rfl, ?_, ?_⟩
  · rintro ⟨h1, h2⟩
    exact absurd (htr.mp h1) (not_lt.mpr (hte.mp h2))
  · rcases lt_or_le s.2 0.7 with h | h
    · exact Or.inl (htr.mpr h)
    · exact Or.inr (hte.mpr h)
  · have hfun : (fun t : Sample × ℚ => decide (t.2 ≥ 0.7))
        = (fun t : Sample × ℚ => !(decide (t.2 < 0.7))) := by
      funext t
      by_cases h : t.2 < 0.7
      · simp [h]
      · simp [h, not_lt.mp h]
    unfold trainSet testSet
    rw [hfun]
    exact List.filter_append_perm _ w
  · intro t ht
    have hnot : ¬ t.2 < 0.7 := not_lt.mpr ht
    simp [classifier, trainSet, List.filter_cons, hnot]
  · intro t ht
    have hnot : ¬ (0.7 : ℚ) ≤ t.2 := not_le.mpr ht
    simp [testSet, List.filter_cons, hnot]

/-- Witness for C11: one sample with split value 0.5. -/
theorem split_partition_witness :
    ((⟨(79, 30), exampleBands, some (Value.num 1)⟩, 1/2) : Sample × ℚ)
        ∈ [((⟨(79, 30), exampleBands, some (Value.num 1)⟩, 1/2) : Sample × ℚ)] ∧
    (((⟨(79, 30), exampleBands, some (Value.num 1)⟩, 1/2) : Sample × ℚ)
        ∈ trainSet [((⟨(79, 30), exampleBands, some (Value.num 1)⟩, 1/2) : Sample × ℚ)]
      ↔ (1/2 : ℚ) < 0.7) :=
  ⟨List.mem_singleton.mpr rfl,
    (split_partition (examplePlatform (1/2))
      [((⟨(79, 30), exampleBands, some (Value.num 1)⟩, 1/2) : Sample × ℚ)]
      (⟨(79, 30), exampleBands, some (Value.num 1)⟩, 1/2)
      (List.mem_singleton.mpr rfl)).1⟩

/-- The stack `predictors` on the cell of `examplePlatform`. -/
theorem predictors_example :
    predictors ⟨1000, 40, 1200, 0.3, 60⟩ = some exampleBands := by
  have h : SafeHills.drainage 40 = 60 := by
    unfold SafeHills.drainage Px.multiply; norm_num
  simp [predictors, Image.select, Image.cat, Image.band, List.find?, exampleBands,
    Cell.drainage, h]

/-- C12 (evaluation at a failing input): two imported points, both with label
1 and split value 0.5.  The number of classes is 1 and the training partition
holds one distinct label, yet the script hands that partition to the trainer
and classifies the stack with the result (the model of `examplePlatform` is the
collection the trainer received). -/
theorem single_class_still_trained :
    trainingPoints (examplePlatform (1/2)) [labelledPoint, labelledPoint2]
      = some [labelledPoint, labelledPoint2] ∧
    numClasses [labelledPoint, labelledPoint2] = 1 ∧
    trainSet (withRand (examplePlatform (1/2))
        (trainingSamples (examplePlatform (1/2)) [labelledPoint, labelledPoint2]))
      = [(⟨(79, 30), exampleBands, some (Value.num 1)⟩, 1/2),
         (⟨(79.5, 30.5), exampleBands, some (Value.num 1)⟩, 1/2)] ∧
    (((trainSet (withRand (examplePlatform (1/2))
        (trainingSamples (examplePlatform (1/2)) [labelledPoint, labelledPoint2]))).filterMap
          (fun s => s.1.risk_class)).dedup).length = 1 ∧
    classifier (examplePlatform (1/2)) (withRand (examplePlatform (1/2))
        (trainingSamples (examplePlatform (1/2)) [labelledPoint, labelledPoint2]))
      = [(⟨(79, 30), exampleBands, some (Value.num 1)⟩, 1/2),
         (⟨(79.5, 30.5), exampleBands, some (Value.num 1)⟩, 1/2)] ∧
    mlPrediction (examplePlatform (1/2)) (withRand (examplePlatform (1/2))
        (trainingSamples (examplePlatform (1/2)) [labelledPoint, labelledPoint2]))
      ⟨1000, 40, 1200, 0.3, 60⟩ = some 1 := by
  have hs : trainingSamples (examplePlatform (1/2)) [labelledPoint, labelledPoint2]
      = [⟨(79, 30), exampleBands, some (Value.num 1)⟩,
         ⟨(79.5, 30.5), exampleBands, some (Value.num 1)⟩] := by
    simp [trainingSamples, examplePlatform, predictors_example, labelledPoint,
      labelledPoint2, Feature.get, classProperty]
  have ht : trainSet (withRand (examplePlatform (1/2))
        (trainingSamples (examplePlatform (1/2)) [labelledPoint, labelledPoint2]))
      = [(⟨(79, 30), exampleBands, some (Value.num 1)⟩, 1/2),
         (⟨(79.5, 30.5), exampleBands, some (Value.num 1)⟩, 1/2)] := by
    rw [hs]
    have h7 : (2⁻¹ : ℚ) < 0.7 := by norm_num
    simp [withRand, trainSet, examplePlatform, List.filter_cons, h7]
  refine ⟨?_, ?_, ht, ?_, ?_, ?_⟩
  · simp [trainingPoints, prepareLabels, prepareLabel, examplePlatform, labelledPoint,
      labelledPoint2, Feature.get, classProperty, Dictionary.set]
  · simp [numClasses, classHist, labelledPoint, labelledPoint2, Feature.get, classProperty]
  · rw [ht]
    simp
  · unfold classifier
    rw [ht]
    rfl
  · unfold mlPrediction
    rw [predictors_example]
    rfl

/-- C13 (counterexample): the point whose `risk_class` is null is returned
unchanged by the label preparation; with split value 0.5 its sample, label
still null, is the training partition the classifier is fitted on, and with
split value 0.9 it is the row the confusion matrix is computed from. -/
theorem unlabelled_point_not_excluded :
    Feature.get unlabelledPoint classProperty = none ∧
    prepareLabel (examplePlatform (1/2)) unlabelledPoint = some unlabelledPoint ∧
    trainingPoints (examplePlatform (1/2)) [unlabelledPoint] = some [unlabelledPoint] ∧
    classifier (examplePlatform (1/2)) (withRand (examplePlatform (1/2))
        (trainingSamples (examplePlatform (1/2)) [unlabelledPoint]))
      = [(⟨(78, 31), exampleBands, none⟩, 1/2)] ∧
    errMatrix (examplePlatform (9/10)) (withRand (examplePlatform (9/10))
        (trainingSamples (examplePlatform (9/10)) [unlabelledPoint]))
      = [(none, 1)] := by
  have hs : ∀ r : ℚ, withRand (examplePlatform r)
      (trainingSamples (examplePlatform r) [unlabelledPoint])
      = [(⟨(78, 31), exampleBands, none⟩, r)] := by
    intro r
    simp [withRand, trainingSamples, examplePlatform, predictors_example, unlabelledPoint,
      Feature.get]
  refine ⟨?_, ?_, ?_, ?_, ?_⟩
  · simp [Feature.get, unlabelledPoint]
  · simp [prepareLabel, Feature.get, unlabelledPoint]
  · simp [trainingPoints, prepareLabels, prepareLabel, examplePlatform, Feature.get,
      unlabelledPoint]
  · rw [hs]
    have h7 : (1/2 : ℚ) < 0.7 := by norm_num
    simp only [classifier, trainSet, List.filter_cons, h7, decide_True, if_true,
      List.filter_nil]
    rfl
  · rw [hs]
    have h7 : (9/10 : ℚ) ≥ 0.7 := by norm_num
    simp only [errMatrix, classifiedTest, testSet, List.filter_cons, h7, decide_True, if_true,
      List.filter_nil, List.map_cons, List.map_nil]
    rfl

/-- C13 (amended): a point whose `risk_class` is null is returned unchanged by
the label preparation, and no later step removes it: when its location has a
pixel in the stack, its sample, label still null, is in `withRand`, in
`trainSet` iff its split value is below 0.7 and in `testSet` iff its split
value is at least 0.7. -/
theorem unlabelled_point_kept {Model Matrix : Type} (P : Platform Model Matrix)
    (f : Feature) (h : f.get classProperty = none) :
    prepareLabel P f = some f ∧
    ∀ (fs : List Feature) (c : Cell) (bands : Image),
      f ∈ fs → P.cellAt f = some c → predictors c = some bands →
      ((⟨f.geometry, bands, none⟩, P.rnd ⟨f.geometry, bands, none⟩) : Sample × ℚ)
          ∈ withRand P (trainingSamples P fs) ∧
      (((⟨f.geometry, bands, none⟩, P.rnd ⟨f.geometry, bands, none⟩) : Sample × ℚ)
          ∈ trainSet (withRand P (trainingSamples P fs))
        ↔ P.rnd ⟨f.geometry, bands, none⟩ < 0.7) ∧
      (((⟨f.geometry, bands, none⟩, P.rnd ⟨f.geometry, bands, none⟩) : Sample × ℚ)
          ∈ testSet (withRand P (trainingSamples P fs))
        ↔ P.rnd ⟨f.geometry, bands, none⟩ ≥ 0.7) := by
  constructor
  · simp [prepareLabel, h]
  · intro fs c bands hf hc hb
    have hmem : ((⟨f.geometry, bands, none⟩, P.rnd ⟨f.geometry, bands, none⟩) : Sample × ℚ)
        ∈ withRand P (trainingSamples P fs) := by
      unfold withRand
      refine List.mem_map.mpr ⟨⟨f.geometry, bands, none⟩, ?_, rfl⟩
      unfold trainingSamples
      refine List.mem_filterMap.mpr ⟨f, hf, ?_⟩
      simp [hc, hb, h]
    refine ⟨hmem, ?_, ?_⟩
    · simp [trainSet, List.mem_filter, hmem]
    · simp [testSet, List.mem_filter, hmem]

/-- Witness for C13 (amended): the point with null label on the cell of
`examplePlatform`, split value 0.5: it is returned unchanged and its sample is
in the training partition exactly when 0.5 is below 0.7. -/
theorem unlabelled_point_kept_witness :
    Feature.get unlabelledPoint classProperty = none ∧
    prepareLabel (examplePlatform (1/2)) unlabelledPoint = some unlabelledPoint ∧
    (((⟨unlabelledPoint.geometry, exampleBands, none⟩,
        (examplePlatform (1/2)).rnd ⟨unlabelledPoint.geometry, exampleBands, none⟩) : Sample × ℚ)
        ∈ trainSet (withRand (examplePlatform (1/2))
            (trainingSamples (examplePlatform (1/2)) [unlabelledPoint]))
      ↔ (examplePlatform (1/2)).rnd ⟨unlabelledPoint.geometry, exampleBands, none⟩ < 0.7) :=
  have h : Feature.get unlabelledPoint classProperty = none := by
    simp [Feature.get, unlabelledPoint]
  ⟨h, (unlabelled_point_kept (examplePlatform (1/2)) unlabelledPoint h).1,
    ((unlabelled_point_kept (examplePlatform (1/2)) unlabelledPoint h).2 [unlabelledPoint]
      ⟨1000, 40, 1200, 0.3, 60⟩ exampleBands (List.mem_singleton.mpr rfl) rfl
      predictors_example).2.1⟩

/-- C14: one fitted model, the trainer applied to the baseline training
partition, classifies both stacks: the baseline prediction at every cell is
that model applied to `predictors`, and the forecast prediction at every cell
and for every forecast rainfall image is the same model applied to
`predictors_forecast`. -/
theorem forecast_model_reuse {Model Matrix : Type} (P : Platform Model Matrix)
    (w : List (Sample × ℚ)) :
    ∃ m : Model, m = P.train (trainSet w) ∧ classifier P w = m ∧
      (∀ c : Cell, mlPrediction P w c = (predictors c).map (P.classify m)) ∧
      (∀ (c : Cell) (forecastRainfall : Image),
        mlPrediction_forecast P w c forecastRainfall
          = (predictors_forecast c forecastRainfall).map (P.classify m)) :=
  ⟨P.train (trainSet w), rfl, rfl, fun _ => rfl, fun _ _ => rfl⟩

/-- The value of `x || 0`. -/
theorem orZero_eq (x : Option ℚ) : orZero x = x.getD 0 := by
  cases x with
  | none => rfl
  | some v =>
    by_cases h : v = 0
    · simp [orZero, h]
    · simp [orZero, h]

/-- The nearest integer of a value less than one half away from an integer. -/
theorem roundTiesEven_eq_of (y : ℚ) (m : ℤ) (h : |y - m| < 1/2) : roundTiesEven y = m := by
  unfold roundTiesEven
  rw [abs_lt] at h
  rcases le_or_lt (m : ℚ) y with hle | hlt
  · have hf : ⌊y⌋ = m := Int.floor_eq_iff.mpr ⟨hle, by linarith [h.2]⟩
    have hr : y - (m : ℚ) < 1/2 := h.2
    simp only [hf, hr, if_true]
  · have hf : ⌊y⌋ = m - 1 :=
      Int.floor_eq_iff.mpr ⟨by push_cast; linarith [h.1], by push_cast; linarith⟩
    have hr1 : ¬ (y - ((m - 1 : ℤ) : ℚ) < 1/2) := by push_cast; linarith [h.1]
    have hr2 : 1/2 < y - ((m - 1 : ℤ) : ℚ) := by push_cast; linarith [h.1]
    simp only [hf, hr1, hr2, if_true, if_false]
    ring

/-- The double nearest to `x`, from its binary exponent `e` and the integer
`m` nearest to its significand scaled to 53 bits. -/
theorem binary64_eq_of (x : ℚ) (e m : ℤ) (h1 : (2 : ℚ) ^ e ≤ |x|)
    (h2 : |x| < (2 : ℚ) ^ (e + 1)) (h3 : |x / 2 ^ (e - 52) - m| < 1/2) :
    binary64 x = m * 2 ^ (e - 52) := by
  have hpos : 0 < |x| := lt_of_lt_of_le (zpow_pos (by norm_num) e) h1
  have hx : x ≠ 0 := abs_pos.mp hpos
  have hlog : Int.log 2 |x| = e := by
    apply le_antisymm
    · have h := (Int.lt_zpow_iff_log_lt (b := 2) (by norm_num) hpos (x := e + 1)).mp
        (by exact_mod_cast h2)
      omega
    · exact (Int.zpow_le_iff_le_log (b := 2) (by norm_num) hpos).mp (by exact_mod_cast h1)
  unfold binary64
  rw [if_neg hx]
  simp only [hlog]
  rw [roundTiesEven_eq_of _ m h3]

/-- The same for a positive `x`, with the bounds written without absolute
values. -/
theorem binary64_eq_of_pos (x : ℚ) (e m : ℤ) (h1 : (2 : ℚ) ^ e ≤ x)
    (h2 : x < (2 : ℚ) ^ (e + 1)) (h3 : (m : ℚ) - 1/2 < x / 2 ^ (e - 52))
    (h4 : x / 2 ^ (e - 52) < (m : ℚ) + 1/2) :
    binary64 x = m * 2 ^ (e - 52) := by
  have hpos : 0 < x := lt_of_lt_of_le (zpow_pos (by norm_num) e) h1
  have habs : |x| = x := abs_of_pos hpos
  refine binary64_eq_of x e m (by rw [habs]; exact h1) (by rw [habs]; exact h2) ?_
  rw [abs_lt]
  constructor <;> linarith

/-- The total of the areas 1, 1, 1 is the double 3. -/
theorem total_of_ones : Js.add (Js.add 1 1) 1 = 3 := by
  have h2 : binary64 (1 + 1) = 2 := by
    rw [binary64_eq_of_pos (1 + 1) 1 4503599627370496 (by norm_num) (by norm_num)
      (by norm_num) (by norm_num)]
    norm_num
  have h3 : binary64 (2 + 1) = 3 := by
    rw [binary64_eq_of_pos (2 + 1) 1 6755399441055744 (by norm_num) (by norm_num)
      (by norm_num) (by norm_num)]
    norm_num
  unfold Js.add
  rw [h2, h3]

/-- The percentage of an area 1 in a total 3 is the double
33.33333333333333 (2345624805922133 / 2^46). -/
theorem percentage_of_third :
    (Js.div 1 3).map (fun q => Js.mul q 100) = some (2345624805922133 / 70368744177664) := by
  have hq : binary64 (1 / 3) = 6004799503160661 / 18014398509481984 := by
    rw [binary64_eq_of_pos (1 / 3) (-2) 6004799503160661 (by norm_num) (by norm_num)
      (by norm_num) (by norm_num)]
    norm_num
  have hp : binary64 (6004799503160661 / 18014398509481984 * 100)
      = 2345624805922133 / 70368744177664 := by
    rw [binary64_eq_of_pos _ 5 4691249611844266 (by norm_num) (by norm_num)
      (by norm_num) (by norm_num)]
    norm_num
  have h3 : (3 : ℚ) ≠ 0 := by norm_num
  simp only [Js.div, h3, if_false, Option.map_some', Js.mul, hq, hp]

/-- C15 (counterexample): for the areas 1, 1, 1 the total is 3 and each
percentage is the double 33.33333333333333; the three do not sum to 100,
neither exactly nor added as JavaScript numbers, which gives
99.99999999999999 (100 - 2^-46). -/
theorem risk_area_percentages_not_exact :
    (calculateRiskAreas (some 1) (some 1) (some 1)).total = 3 ∧
    (calculateRiskAreas (some 1) (some 1) (some 1)).lowPct
      = some (2345624805922133 / 70368744177664) ∧
    (calculateRiskAreas (some 1) (some 1) (some 1)).medPct
      = some (2345624805922133 / 70368744177664) ∧
    (calculateRiskAreas (some 1) (some 1) (some 1)).highPct
      = some (2345624805922133 / 70368744177664) ∧
    (2345624805922133 / 70368744177664 + 2345624805922133 / 70368744177664
      + 2345624805922133 / 70368744177664 : ℚ) ≠ 100 ∧
    Js.add (Js.add (2345624805922133 / 70368744177664) (2345624805922133 / 70368744177664))
        (2345624805922133 / 70368744177664) = 100 - 1 / 70368744177664 ∧
    (100 - 1 / 70368744177664 : ℚ) ≠ 100 := by
  have h1 : orZero (some 1) = 1 := by norm_num [orZero]
  have ht : (calculateRiskAreas (some 1) (some 1) (some 1)).total = 3 := by
    simp only [calculateRiskAreas, h1]
    exact total_of_ones
  have h3 : (3 : ℚ) ≠ 0 := by norm_num
  have hp : (calculateRiskAreas (some 1) (some 1) (some 1)).lowPct
      = some (2345624805922133 / 70368744177664) := by
    simp only [calculateRiskAreas, h1, total_of_ones, ne_eq, h3, not_false_eq_true, if_true]
    exact percentage_of_third
  refine ⟨ht, hp, hp, hp, by norm_num, ?_, by norm_num⟩
  have hs1 : binary64 (2345624805922133 / 70368744177664 + 2345624805922133 / 70368744177664)
      = 2345624805922133 / 35184372088832 := by
    rw [binary64_eq_of_pos _ 6 4691249611844266 (by norm_num) (by norm_num)
      (by norm_num) (by norm_num)]
    norm_num
  have hs2 : binary64 (2345624805922133 / 35184372088832 + 2345624805922133 / 70368744177664)
      = 100 - 1 / 70368744177664 := by
    rw [binary64_eq_of_pos _ 6 7036874417766399 (by norm_num) (by norm_num)
      (by norm_num) (by norm_num)]
    norm_num
  unfold Js.add
  rw [hs1, hs2]

/-- C15 (amended): for all three class areas, each a number or null (null
counts as 0), with `total` their sum as JavaScript numbers: when the total is
zero the three percentages are 0 and nothing is divided; when it is not zero
each percentage is the area divided by the total, times 100, both operations
rounded to a double.  In both cases the three percentages are numbers, while a
division by zero is not one. -/
theorem risk_area_percentages (low med high : Option ℚ) :
    (calculateRiskAreas low med high).low = low.getD 0 ∧
    (calculateRiskAreas low med high).med = med.getD 0 ∧
    (calculateRiskAreas low med high).high = high.getD 0 ∧
    (calculateRiskAreas low med high).total
      = binary64 (binary64 (low.getD 0 + med.getD 0) + high.getD 0) ∧
    ((calculateRiskAreas low med high).total = 0 →
      (calculateRiskAreas low med high).lowPct = some 0 ∧
      (calculateRiskAreas low med high).medPct = some 0 ∧
      (calculateRiskAreas low med high).highPct = some 0) ∧
    ((calculateRiskAreas low med high).total ≠ 0 →
      (calculateRiskAreas low med high).lowPct
        = some (binary64 (binary64 (low.getD 0 / (calculateRiskAreas low med high).total) * 100)) ∧
      (calculateRiskAreas low med high).medPct
        = some (binary64 (binary64 (med.getD 0 / (calculateRiskAreas low med high).total) * 100)) ∧
      (calculateRiskAreas low med high).highPct
        = some (binary64
            (binary64 (high.getD 0 / (calculateRiskAreas low med high).total) * 100))) ∧
    (∃ a b c : ℚ, (calculateRiskAreas low med high).lowPct = some a ∧
      (calculateRiskAreas low med high).medPct = some b ∧
      (calculateRiskAreas low med high).highPct = some c) ∧
    (∀ x : ℚ, Js.div x 0 = none) := by
  have hzero : (calculateRiskAreas low med high).total = 0 →
      (calculateRiskAreas low med high).lowPct = some 0 ∧
      (calculateRiskAreas low med high).medPct = some 0 ∧
      (calculateRiskAreas low med high).highPct = some 0 := by
    intro h0
    simp only [calculateRiskAreas] at h0 ⊢
    simp [h0]
  have hpos : (calculateRiskAreas low med high).total ≠ 0 →
      (calculateRiskAreas low med high).lowPct
        = some (binary64 (binary64 (low.getD 0 / (calculateRiskAreas low med high).total) * 100)) ∧
      (calculateRiskAreas low med high).medPct
        = some (binary64 (binary64 (med.getD 0 / (calculateRiskAreas low med high).total) * 100)) ∧
      (calculateRiskAreas low med high).highPct
        = some (binary64
            (binary64 (high.getD 0 / (calculateRiskAreas low med high).total) * 100)) := by
    intro h0
    simp only [calculateRiskAreas, orZero_eq] at h0 ⊢
    simp [h0, Js.div, Js.mul]
  refine ⟨?_, ?_, ?_, ?_, hzero, hpos, ?_, ?_⟩
  · simp [calculateRiskAreas, orZero_eq]
  · simp [calculateRiskAreas, orZero_eq]
  · simp [calculateRiskAreas, orZero_eq]
  · simp [calculateRiskAreas, orZero_eq, Js.add]
  · by_cases h0 : (calculateRiskAreas low med high).total = 0
    · exact ⟨0, 0, 0, hzero h0⟩
    · exact ⟨_, _, _, hpos h0⟩
  · intro x
    simp [Js.div]

/-- Witness for C15 (amended): three null areas give total 0 and percentages
0; the areas 1, 1, 1 give total 3, not zero, and the percentage of the first
is the area over the total, times 100, in doubles. -/
theorem risk_area_percentages_witness :
    (calculateRiskAreas none none none).total = 0 ∧
    (calculateRiskAreas none none none).lowPct = some 0 ∧
    (calculateRiskAreas (some 1) (some 1) (some 1)).total ≠ 0 ∧
    (calculateRiskAreas (some 1) (some 1) (some 1)).lowPct
      = some (binary64 (binary64
          ((some (1 : ℚ)).getD 0 / (calculateRiskAreas (some 1) (some 1) (some 1)).total)
            * 100)) :=
  have h0 : (calculateRiskAreas none none none).total = 0 := by
    simp [calculateRiskAreas, orZero, Js.add, binary64]
  have h1 : (calculateRiskAreas (some 1) (some 1) (some 1)).total ≠ 0 := by
    have h : orZero (some 1) = 1 := by norm_num [orZero]
    simp only [calculateRiskAreas, h, total_of_ones]
    norm_num
  ⟨h0, ((risk_area_percentages none none none).2.2.2.2.1 h0).1, h1,
    ((risk_area_percentages (some 1) (some 1) (some 1)).2.2.2.2.2.1 h1).1⟩

/-- The three class terms of a pixel whose class is 1, 2 or 3 add up to its
area. -/
theorem class_terms_sum (x a : ℚ) (h : x = 1 ∨ x = 2 ∨ x = 3) :
    Px.multiply (Px.eq x 1) a + Px.multiply (Px.eq x 2) a + Px.multiply (Px.eq x 3) a = a := by
  rcases h with h | h | h <;> subst h <;> norm_num [Px.multiply, Px.eq]

/-- The sum over a region of a term that is zero on every pixel is zero. -/
theorem sum_eq_zero_of_terms {α : Type} (l : List α) (g : α → ℚ) (h : ∀ p ∈ l, g p = 0) :
    (l.map g).sum = 0 := by
  induction l with
  | nil => rfl
  | cons p ps ih =>
    rw [List.map_cons, List.sum_cons, h p (List.mem_cons_self _ _),
      ih (fun q hq => h q (List.mem_cons_of_mem _ hq)), add_zero]

/-- The sums of three terms over a region add up to the sum of a fourth when
they do so on every pixel. -/
theorem sum_three_terms {α : Type} (l : List α) (g1 g2 g3 g : α → ℚ)
    (h : ∀ p ∈ l, g1 p + g2 p + g3 p = g p) :
    (l.map g1).sum + (l.map g2).sum + (l.map g3).sum = (l.map g).sum := by
  induction l with
  | nil => simp
  | cons p ps ih =>
    have hp := h p (List.mem_cons_self _ _)
    have ih2 := ih (fun q hq => h q (List.mem_cons_of_mem _ hq))
    simp only [List.map_cons, List.sum_cons]
    linarith

/-- C16: over a finite region whose pixels all have class 1, 2 or 3, the three
class areas add up to the total pixel area in square kilometres, on the
baseline and on the forecast prediction, and a class that no pixel has gets
area 0. -/
theorem class_areas_sum (region : List RegionPixel)
    (hb : ∀ p ∈ region, p.ml_prediction = 1 ∨ p.ml_prediction = 2 ∨ p.ml_prediction = 3)
    (hf : ∀ p ∈ region, p.ml_prediction_forecast = 1 ∨ p.ml_prediction_forecast = 2 ∨
      p.ml_prediction_forecast = 3) :
    classArea region 1 + classArea region 2 + classArea region 3
      = (region.map (fun p => p.pixelArea / 1e6)).sum ∧
    classArea_forecast region 1 + classArea_forecast region 2 + classArea_forecast region 3
      = (region.map (fun p => p.pixelArea / 1e6)).sum ∧
    (∀ c : ℚ, (∀ p ∈ region, p.ml_prediction ≠ c) → classArea region c = 0) ∧
    (∀ c : ℚ, (∀ p ∈ region, p.ml_prediction_forecast ≠ c) →
      classArea_forecast region c = 0) := by
  refine ⟨?_, ?_, ?_, ?_⟩
  · unfold classArea
    exact sum_three_terms region _ _ _ _ (fun p hp => class_terms_sum _ _ (hb p hp))
  · unfold classArea_forecast
    exact sum_three_terms region _ _ _ _ (fun p hp => class_terms_sum _ _ (hf p hp))
  · intro c hc
    unfold classArea
    refine sum_eq_zero_of_terms region _ (fun p hp => ?_)
    simp [Px.multiply, Px.eq, hc p hp]
  · intro c hc
    unfold classArea_forecast
    refine sum_eq_zero_of_terms region _ (fun p hp => ?_)
    simp [Px.multiply, Px.eq, hc p hp]

/-- Witness for C16: a region of two pixels of 10000 square metres, classes 1
and 3 on the baseline and 2 and 3 on the forecast. -/
theorem class_areas_sum_witness :
    classArea [⟨1, 2, 10000⟩, ⟨3, 3, 10000⟩] 1 + classArea [⟨1, 2, 10000⟩, ⟨3, 3, 10000⟩] 2
        + classArea [⟨1, 2, 10000⟩, ⟨3, 3, 10000⟩] 3
      = (([⟨1, 2, 10000⟩, ⟨3, 3, 10000⟩] : List RegionPixel).map
          (fun p => p.pixelArea / 1e6)).sum :=
  (class_areas_sum [⟨1, 2, 10000⟩, ⟨3, 3, 10000⟩]
    (by
      intro p hp
      simp only [List.mem_cons, List.mem_singleton, List.not_mem_nil, or_false] at hp
      rcases hp with h | h <;> subst h <;> simp)
    (by
      intro p hp
      simp only [List.mem_cons, List.mem_singleton, List.not_mem_nil, or_false] at hp
      rcases hp with h | h <;> subst h <;> simp)).1

/-- C17 (evaluation at a failing trace): clicks at (79, 30) and then at
(78, 31), whose results arrive in the opposite order.  The box ends up showing
the older click, its coordinates in the first label; had the results arrived
in the order of the clicks it would show the newer one.  After any events, the
arrival of a result rewrites the box from that result alone. -/
theorem stale_result_overwrites :
    (inspectorRun initialUI
        [InspectorEvent.click ⟨79, 30⟩, InspectorEvent.click ⟨78, 31⟩,
          InspectorEvent.arrive ⟨78, 31⟩ (some (resultWithElevation 2000)),
          InspectorEvent.arrive ⟨79, 30⟩ (some (resultWithElevation 1000))]).inspectorBox
      = (displayInspectorData (resultWithElevation 1000) ⟨79, 30⟩ initialUI).inspectorBox ∧
    (inspectorRun initialUI
        [InspectorEvent.click ⟨79, 30⟩, InspectorEvent.click ⟨78, 31⟩,
          InspectorEvent.arrive ⟨78, 31⟩ (some (resultWithElevation 2000)),
          InspectorEvent.arrive ⟨79, 30⟩ (some (resultWithElevation 1000))]).inspectorBox.head?
      = some (Widget.label [Part.text "Coordinates: ", Part.fixed 79 4, Part.text ", ",
          Part.fixed 30 4]) ∧
    (inspectorRun initialUI
        [InspectorEvent.click ⟨79, 30⟩, InspectorEvent.click ⟨78, 31⟩,
          InspectorEvent.arrive ⟨79, 30⟩ (some (resultWithElevation 1000)),
          InspectorEvent.arrive ⟨78, 31⟩ (some (resultWithElevation 2000))]).inspectorBox.head?
      = some (Widget.label [Part.text "Coordinates: ", Part.fixed 78 4, Part.text ", ",
          Part.fixed 31 4]) ∧
    (∀ (ui : UI) (events : List InspectorEvent) (c : Coords) (r : PointQueryResult),
      (inspectorRun ui (events ++ [InspectorEvent.arrive c (some r)])).inspectorBox
        = (displayInspectorData r c ui).inspectorBox) := by
  refine ⟨rfl, rfl, rfl, ?_⟩
  intro ui events c r
  simp [inspectorRun, List.foldl_append, inspectorStep, onResult, displayInspectorData]

/-- The labels an optional line adds start with its caption. -/
theorem optLine_head (caption : String) (v : Option ℚ) (digits : Nat) (suffix : String)
    (t : LabelText) (ht : t ∈ optLine caption v digits suffix) :
    t.head? = some (Part.text caption) := by
  cases v with
  | none => simp [optLine] at ht
  | some x =>
    simp only [optLine, List.mem_singleton] at ht
    subst ht
    rfl

/-- C18: the callback hands the query result to `displayInspectorData` as it
is.  When its `rainfall_forecast` entry is absent, the forecast panel holds
only the lines of the three other forecast entries, none of its labels starts
with the rainfall caption, and the sidebar rainfall label keeps its text; when
its `precipitation` entry is absent, the box gets one text label without a
number in place of the precipitation panel. -/
theorem null_rainfall_stays_absent (r : PointQueryResult) (coords : Coords) (ui : UI) :
    onResult coords (some r) ui = displayInspectorData r coords ui ∧
    (r.rainfall_forecast = none →
      forecastPanel r = optLine "LSI: " r.LSI_forecast 3 ""
        ++ optLine "ML Prediction: " r.ML_Pred_forecast 0 ""
        ++ optLine "Weighted Risk: " r.Weighted_Risk_forecast 0 "" ∧
      (∀ t ∈ forecastPanel r, t.head? ≠ some (Part.text "Precipitation: ")) ∧
      (displayInspectorData r coords ui).rainForecastValueLabel = ui.rainForecastValueLabel) ∧
    (r.precipitation = none →
      precipWidget r = Widget.label [Part.text "No precipitation data available"]) := by
  refine ⟨rfl, ?_, ?_⟩
  · intro h
    have hp : forecastPanel r = optLine "LSI: " r.LSI_forecast 3 ""
        ++ optLine "ML Prediction: " r.ML_Pred_forecast 0 ""
        ++ optLine "Weighted Risk: " r.Weighted_Risk_forecast 0 "" := by
      simp [forecastPanel, h, optLine]
    refine ⟨hp, ?_, ?_⟩
    · intro t ht
      rw [hp] at ht
      simp only [List.mem_append] at ht
      rcases ht with (ht | ht) | ht
      · rw [optLine_head _ _ _ _ t ht]; decide
      · rw [optLine_head _ _ _ _ t ht]; decide
      · rw [optLine_head _ _ _ _ t ht]; decide
    · simp [displayInspectorData, optSet, h]
  · intro h
    simp [precipWidget, h]

/-- Witness for C18: the result with elevation 1000 and every other entry
null, after a click at (79, 30). -/
theorem null_rainfall_stays_absent_witness :
    (resultWithElevation 1000).rainfall_forecast = none ∧
    forecastPanel (resultWithElevation 1000) = [] ∧
    (resultWithElevation 1000).precipitation = none ∧
    precipWidget (resultWithElevation 1000)
      = Widget.label [Part.text "No precipitation data available"] :=
  ⟨rfl,
    ((null_rainfall_stays_absent (resultWithElevation 1000) ⟨79, 30⟩ initialUI).2.1 rfl).1,
    rfl,
    (null_rainfall_stays_absent (resultWithElevation 1000) ⟨79, 30⟩ initialUI).2.2 rfl⟩

/-- C19: with the fallback forecast rainfall, 0.05 times the baseline rainfall
`r`, the normalised forecast rainfall is at most the normalised baseline
rainfall, so the forecast index is at most the baseline index, for all band
values and for the surfaces of the script at every cell. -/
theorem fallback_forecast_le_baseline (slope r ndvi geology drainage : ℚ) (c : Cell) :
    getFallbackPrecipitationData r = [("rainfall", Px.multiply r 0.05)] ∧
    rainN_forecast (Px.multiply r 0.05) ≤ rainN r ∧
    lsi_forecast slope (Px.multiply r 0.05) ndvi geology drainage
      ≤ lsi slope r ndvi geology drainage ∧
    getForecastPrecipitationData (some []) c.rainfall
      = some [("rainfall", Px.multiply c.rainfall 0.05)] ∧
    Cell.lsi_forecast c (Px.multiply c.rainfall 0.05) ≤ Cell.lsi c := by
  have key : ∀ x : ℚ, rainN_forecast (Px.multiply x 0.05) ≤ rainN x := by
    intro x
    unfold rainN_forecast rainN
    rcases le_total x 0 with hx | hx
    · have h1 : Px.multiply x 0.05 ≤ 0 := by
        unfold Px.multiply; nlinarith
      rw [norm_below (by norm_num) h1, norm_below (by norm_num) hx]
    · refine clamp01_mono ?_
      unfold Px.unitScale Px.multiply
      rw [div_le_div_iff₀ (by norm_num) (by norm_num)]
      nlinarith
  refine ⟨rfl, key r, ?_, rfl, ?_⟩
  · rw [lsi_eq, lsi_forecast_eq]
    linarith [key r]
  · unfold Cell.lsi_forecast Cell.lsi
    rw [lsi_eq, lsi_forecast_eq]
    linarith [key c.rainfall]

end SafeHills
